import Mathlib

/-!
Verification of the cookie-scanner core (src/server.js and its variant
src/unnamed/part_000).  The pure helpers (toIso, keyOf, the capture
record construction, the diff computation) are translated directly from
the source.  The browser-driven parts (launch, goto, isVisible, click,
cookies) are embedded by threading an explicit environment that fixes
the outcome of each external browser operation, so the orchestration
logic of scanUrl and tryAccept becomes a pure function of that
environment.
-/

namespace CookieScanner

/-! ### Browser-level cookie data (Playwright context.cookies() element) -/

/-- A raw cookie as returned by the browser session.  The expires field
is epoch seconds (absent for a session cookie); sameSite may be absent. -/
structure RawCookie where
  name : String
  value : String
  domain : String
  path : String
  expires : Option Int
  httpOnly : Bool
  secure : Bool
  sameSite : Option String
deriving DecidableEq, Repr

/-- One captured cookie record, as built by capture in server.js. -/
structure CookieRecord where
  url : String
  stage : String
  name : String
  domain : String
  path : String
  secure : Bool
  httpOnly : Bool
  sameSite : String
  expires_iso : String
  firstParty : Bool
deriving DecidableEq, Repr

/-! ### toIso: epoch seconds to ISO-8601, modelling the JS Date builtin.

Source: function toIso(ts){ if(!ts || ts < 0) return '';
try{ return new Date(ts*1000).toISOString(); }catch{ return ''; } } -/

/-- Decimal digit character of n % 10. -/
def digitChar (n : Nat) : Char :=
  match n % 10 with
  | 0 => '0' | 1 => '1' | 2 => '2' | 3 => '3' | 4 => '4'
  | 5 => '5' | 6 => '6' | 7 => '7' | 8 => '8' | _ => '9'

/-- Two decimal digits (tens, ones). -/
def pad2 (n : Nat) : List Char := [digitChar (n / 10), digitChar n]

/-- Three decimal digits. -/
def pad3 (n : Nat) : List Char := [digitChar (n / 100), digitChar (n / 10), digitChar n]

/-- Four decimal digits. -/
def pad4 (n : Nat) : List Char :=
  [digitChar (n / 1000), digitChar (n / 100), digitChar (n / 10), digitChar n]

/-- Six decimal digits. -/
def pad6 (n : Nat) : List Char :=
  [digitChar (n / 100000), digitChar (n / 10000), digitChar (n / 1000),
   digitChar (n / 100), digitChar (n / 10), digitChar n]

/-- Civil date (year, month, day) from days since the Unix epoch,
proleptic Gregorian calendar; the classical days-to-civil algorithm,
which is what Date.prototype.toISOString exposes for the date part. -/
def civilFromDays (days : Nat) : Nat × Nat × Nat :=
  let z := days + 719468
  let era := z / 146097
  let doe := z % 146097
  let yoe := (doe - doe / 1460 + doe / 36524 - doe / 146096) / 365
  let doy := doe - (365 * yoe + yoe / 4 - yoe / 100)
  let mp := (5 * doy + 2) / 153
  let d := doy - (153 * mp + 2) / 5 + 1
  let m := if mp < 10 then mp + 3 else mp - 9
  let y := yoe + era * 400
  (if m ≤ 2 then y + 1 else y, m, d)

/-- Year digits: four digits up to 9999, else the expanded-year form
with a plus sign and six digits (ECMAScript extended years; negative
years cannot arise from a nonnegative millisecond value). -/
def yearChars (y : Nat) : List Char := if y ≤ 9999 then pad4 y else '+' :: pad6 y

/-- Render a nonnegative millisecond timestamp the way
Date.prototype.toISOString does: YYYY-MM-DDTHH:MM:SS.mmmZ. -/
def isoOfMillis (ms : Nat) : String :=
  let rem := ms % 86400000
  let ymd := civilFromDays (ms / 86400000)
  String.mk (yearChars ymd.1 ++ '-' :: pad2 ymd.2.1 ++ '-' :: pad2 ymd.2.2 ++
    'T' :: pad2 (rem / 3600000) ++ ':' :: pad2 (rem % 3600000 / 60000) ++
    ':' :: pad2 (rem % 60000 / 1000) ++ '.' :: pad3 (rem % 1000) ++ ['Z'])

/-- Largest millisecond value a JS Date can hold (8.64e15); beyond it
toISOString raises a RangeError. -/
def MAX_DATE_MS : Nat := 8640000000000000

/-- Models new Date(ms).toISOString(); none models a thrown RangeError.
toIso only reaches this with ms at least 1000, so the negative branch
(pre-1970 dates, which a real Date formats with a negative year) is
unreachable from the program and is conservatively mapped to none. -/
def dateToIso (ms : Int) : Option String :=
  if ms < 0 ∨ (MAX_DATE_MS : Int) < ms then none else some (isoOfMillis ms.toNat)

/-- Translation of toIso from server.js; none models an absent
(undefined) expires field, for which JS !ts is true. -/
def toIso (ts : Option Int) : String :=
  match ts with
  | none => ""
  | some t =>
    if t = 0 ∨ t < 0 then ""
    else
      match dateToIso (t * 1000) with
      | some s => s
      | none => ""

/-! ### A decidable ISO-8601 timestamp checker (for stating validity) -/

/-- Numeric value of a digit character. -/
def digitVal (c : Char) : Nat := c.toNat - 48

/-- Value of a two-digit group. -/
def twoVal (a b : Char) : Nat := 10 * digitVal a + digitVal b

/-- Checks the fixed 20-character tail -MM-DDTHH:MM:SS.mmmZ, with the
month, day and time fields in range. -/
def isoTailOk : List Char → Bool
  | [a, m1, m2, b, d1, d2, c, h1, h2, e, n1, n2, f, s1, s2, g, f1, f2, f3, z] =>
      a == '-' && b == '-' && c == 'T' && e == ':' && f == ':' && g == '.' && z == 'Z' &&
      m1.isDigit && m2.isDigit && d1.isDigit && d2.isDigit &&
      h1.isDigit && h2.isDigit && n1.isDigit && n2.isDigit &&
      s1.isDigit && s2.isDigit && f1.isDigit && f2.isDigit && f3.isDigit &&
      decide (1 ≤ twoVal m1 m2) && decide (twoVal m1 m2 ≤ 12) &&
      decide (1 ≤ twoVal d1 d2) && decide (twoVal d1 d2 ≤ 31) &&
      decide (twoVal h1 h2 ≤ 23) && decide (twoVal n1 n2 ≤ 59) && decide (twoVal s1 s2 ≤ 59)
  | _ => false

/-- A UTC ISO-8601 timestamp: either a four-digit year or an expanded
six-digit year with a leading plus sign, followed by the fixed tail. -/
def isIso8601L : List Char → Bool
  | y1 :: y2 :: y3 :: y4 :: rest =>
      (y1.isDigit && y2.isDigit && y3.isDigit && y4.isDigit && isoTailOk rest)
      ||
      (y1 == '+' && y2.isDigit && y3.isDigit && y4.isDigit &&
        (match rest with
         | y5 :: y6 :: y7 :: rest2 => y5.isDigit && y6.isDigit && y7.isDigit && isoTailOk rest2
         | _ => false))
  | _ => false

/-- String form of the ISO-8601 timestamp checker. -/
def isIso8601 (s : String) : Bool := isIso8601L s.data

/-! ### keyOf and the diff computation -/

/-- Translation of keyOf from server.js: name, domain and path joined
with a literal bar character. -/
def keyOf (c : CookieRecord) : String := c.name ++ "|" ++ c.domain ++ "|" ++ c.path

/-- The diff step of scanUrl: keep the post records whose key is not
among the keys of pre (the source builds a Map keyed by keyOf over pre
and filters post by key membership), re-stamping stage. -/
def diff (pre post : List CookieRecord) : List CookieRecord :=
  let preKeys := pre.map keyOf
  (post.filter (fun c => !(preKeys.contains (keyOf c)))).map
    (fun c => { c with stage := "added_after_consent" })

/-! ### capture: building cookie records from the jar -/

/-- Strips a single leading dot, as the regex replace in capture does. -/
def stripLeadingDot (d : String) : String :=
  match d.data with
  | '.' :: rest => String.mk rest
  | _ => d

/-- JS String.prototype.endsWith on our strings. -/
def strEndsWith (s suffix : String) : Bool := suffix.data.isSuffixOf s.data

/-- The first-party test of capture: with dom the domain after the
leading-dot strip, the flag is host equality or dot-prefixed suffix
match when dom is nonempty, and true when dom is empty (JS truthiness
of the empty string). -/
def firstPartyFlag (domain host : String) : Bool :=
  let dom := stripLeadingDot domain
  if dom = "" then true else (host == dom || strEndsWith host ("." ++ dom))

/-- Models the hostname field of the WHATWG URL parser to the extent
capture depends on it: the text after the first scheme separator up to
the first slash, colon, question mark or hash. -/
def afterSchemeSep : List Char → List Char
  | ':' :: '/' :: '/' :: rest => rest
  | _ :: rest => afterSchemeSep rest
  | [] => []

/-- Host characters: up to the first delimiter. -/
def takeHost : List Char → List Char
  | [] => []
  | c :: rest => if c = '/' ∨ c = ':' ∨ c = '?' ∨ c = '#' then [] else c :: takeHost rest

/-- Hostname of a URL string (model of new URL(url).hostname). -/
def hostnameOf (url : String) : String := String.mk (takeHost (afterSchemeSep url.data))

/-- One output record of capture, translated field by field from the
object literal in server.js. -/
def mkRecord (url stage host : String) (c : RawCookie) : CookieRecord :=
  { url := url, stage := stage, name := c.name, domain := c.domain, path := c.path,
    secure := c.secure, httpOnly := c.httpOnly, sameSite := c.sameSite.getD "",
    expires_iso := toIso c.expires, firstParty := firstPartyFlag c.domain host }

/-- The pure body of capture: map the jar through mkRecord with the
host parsed from the url. -/
def captureList (jar : List RawCookie) (url stage : String) : List CookieRecord :=
  let host := hostnameOf url
  jar.map (mkRecord url stage host)

/-- The cookie state of the browser session visible to capture. -/
structure SessionState where
  jar : List RawCookie
deriving DecidableEq

/-- Translation of capture: context.cookies() is a read of the session
cookie state; the state is threaded explicitly and returned unchanged
because the source performs no write on the session. -/
def capture (st : SessionState) (url stage : String) : List CookieRecord × SessionState :=
  let cookies := st.jar
  (captureList cookies url stage, st)

/-! ### tryAccept: the consent resolver -/

/-- The fixed selector list from server.js, in source order. -/
def CONSENT_SELECTORS : List String :=
  ["#onetrust-accept-btn-handler",
   "[aria-label=\"Accept all\"]",
   "[data-testid=\"uc-accept-all-button\"]",
   "button:has-text(\"Accepter alle\")",
   "button:has-text(\"Acceptér\")",
   "button:has-text(\"Tillad alle\")",
   "button:has-text(\"Accept All\")",
   "button[title=\"Accept all\"]",
   "button[title=\"Accept All\"]",
   ".ot-sdk-container .accept-btn-handler",
   "button#acceptAll", "button#cmpbntyestxt", "button#cmpwelcomebtnyes"]

/-- Outcome of the visibility probe for one selector: the resolved
element is visible, it is not visible (or absent, or the 500 ms budget
elapses, which isVisible reports as false), or the probe throws (the
surrounding try swallows it). -/
inductive VisOutcome
  | visible
  | notVisible
  | error
deriving DecidableEq

/-- The page as tryAccept observes it: what the visibility probe of
each selector yields, and whether a click on it would succeed.  The
click outcome is recorded so that independence from it can be stated. -/
structure Page where
  vis : String → VisOutcome
  clickOk : String → Bool

/-- The selector loop of tryAccept.  Besides the returned boolean the
embedding records, as explicit effect state, the list of selectors the
loop clicked (the source clicks at most one).  On a visible element the
click is attempted and its failure swallowed by the inner catch, a
fixed 1500 ms wait follows, and the loop returns true; a probe error is
swallowed by the outer catch and the loop moves on. -/
def tryAcceptGo (page : Page) : List String → Bool × List String
  | [] => (false, [])
  | sel :: rest =>
    match page.vis sel with
    | VisOutcome.visible =>
        let _clickSucceeded := page.clickOk sel
        (true, [sel])
    | VisOutcome.notVisible => tryAcceptGo page rest
    | VisOutcome.error => tryAcceptGo page rest

/-- Translation of tryAccept from server.js. -/
def tryAccept (page : Page) : Bool × List String := tryAcceptGo page CONSENT_SELECTORS

/-! ### scanUrl: the orchestrated pipeline -/

/-- Navigation timeout from server.js (milliseconds). -/
def NAV_TIMEOUT : Nat := 45000

/-- Pre-consent settle delay from server.js (milliseconds). -/
def WAIT_MS : Nat := 6000

/-- Fatal failures of the pipeline. -/
inductive ScanError
  | LaunchFailure
  | NavigationTimeout
  | NavError (msg : String)
deriving DecidableEq

/-- Whether a browser session existed and was released. -/
inductive SessionOutcome
  | noneCreated
  | released
deriving DecidableEq

/-- The scan result object of scanUrl. -/
structure ScanResult where
  pre : List CookieRecord
  post : List CookieRecord
  diff : List CookieRecord
deriving DecidableEq

/-- Outcomes of the external browser operations for one scan: whether
chromium.launch succeeds, how long the navigation needs and whether it
fails for a reason other than time, the cookie jar contents at the two
snapshot points, and the page behaviour seen by tryAccept.  The
network-idle waits are absent because their failures are swallowed
(.catch with an empty handler) and the fixed waits are pure delays. -/
structure Env where
  launchOk : Bool
  navTime : Nat
  navError : Option String
  jarPre : List RawCookie
  jarPost : List RawCookie
  vis : String → VisOutcome
  clickOk : String → Bool

/-- Translation of scanUrl from server.js.  The try/finally is embedded
by pairing every result produced after a successful launch with a
released session; a launch failure propagates before the try block, so
no session exists to release.  Navigation fails with NavigationTimeout
when it needs more than NAV_TIMEOUT milliseconds. -/
def scanUrl (env : Env) (targetUrl : String) : Except ScanError ScanResult × SessionOutcome :=
  if env.launchOk then
    let result : Except ScanError ScanResult :=
      if NAV_TIMEOUT < env.navTime then Except.error ScanError.NavigationTimeout
      else
        match env.navError with
        | some m => Except.error (ScanError.NavError m)
        | none =>
          let pre := (capture ⟨env.jarPre⟩ targetUrl "pre-consent").1
          let _accepted := tryAccept ⟨env.vis, env.clickOk⟩
          let post := (capture ⟨env.jarPost⟩ targetUrl "post-consent").1
          let d := diff pre post
          Except.ok ⟨pre, post, d⟩
    (result, SessionOutcome.released)
  else (Except.error ScanError.LaunchFailure, SessionOutcome.noneCreated)

/-! ### The /api/scan handler: URL validation before the scan -/

/-- The parts of a parsed URL the handler looks at. -/
structure ParsedUrl where
  protocol : String
  href : String
deriving DecidableEq

/-- Splits the characters before the first colon from the rest. -/
def splitScheme : List Char → Option (List Char × List Char)
  | [] => none
  | ':' :: rest => some ([], rest)
  | c :: rest =>
    match splitScheme rest with
    | some (sch, r) => some (c :: sch, r)
    | none => none

/-- Characters allowed after the first character of a scheme. -/
def isSchemeChar (c : Char) : Bool := c.isAlpha || c.isDigit || c == '+' || c == '-' || c == '.'

/-- Models the WHATWG URL constructor to the extent the handler uses
it: parsing fails (the constructor throws) when the string has no valid
scheme followed by a colon; otherwise protocol is the lower-cased
scheme with the trailing colon, and href reproduces the input. -/
def parseUrl (s : String) : Option ParsedUrl :=
  match splitScheme s.data with
  | none => none
  | some (sch, _) =>
    match sch with
    | [] => none
    | c :: cs =>
      if c.isAlpha && cs.all isSchemeChar then
        some ⟨String.mk ((c :: cs).map Char.toLower) ++ ":", s⟩
      else none

/-- Responses of the /api/scan route body: the missing-url 400, the
invalid-url 400 (the catch around new URL and the protocol test), or
the serialized outcome of scanUrl. -/
inductive ApiResponse
  | badRequestMissing
  | badRequestInvalid
  | scanResponse (r : Except ScanError ScanResult) (sess : SessionOutcome)

/-- Translation of the /api/scan handler after body parsing: url absent
gives the missing-url 400; a URL that fails to parse or whose protocol
does not match the regex for http or https gives the invalid-url 400,
and only otherwise is scanUrl invoked. -/
def handleScan (env : Env) (url : Option String) : ApiResponse :=
  match url with
  | none => ApiResponse.badRequestMissing
  | some u =>
    match parseUrl u with
    | none => ApiResponse.badRequestInvalid
    | some parsed =>
      if parsed.protocol == "http:" || parsed.protocol == "https:" then
        let out := scanUrl env parsed.href
        ApiResponse.scanResponse out.1 out.2
      else ApiResponse.badRequestInvalid

/-! ### Auxiliary predicates and concrete values used in the theorems -/

/-- Agreement of two records on every field other than stage. -/
def agreesExceptStage (a b : CookieRecord) : Prop :=
  a.url = b.url ∧ a.name = b.name ∧ a.domain = b.domain ∧ a.path = b.path ∧
  a.secure = b.secure ∧ a.httpOnly = b.httpOnly ∧ a.sameSite = b.sameSite ∧
  a.expires_iso = b.expires_iso ∧ a.firstParty = b.firstParty

/-- A pre-consent record whose name contains a bar character. -/
def collA : CookieRecord :=
  { url := "https://example.com/", stage := "pre-consent", name := "a|b", domain := "c",
    path := "p", secure := false, httpOnly := false, sameSite := "",
    expires_iso := "", firstParty := true }

/-- A post-consent record with a different identity triple but the same
joined key as collA. -/
def collB : CookieRecord :=
  { url := "https://example.com/", stage := "post-consent", name := "a", domain := "b|c",
    path := "p", secure := false, httpOnly := false, sameSite := "",
    expires_iso := "", firstParty := true }

/-- A raw cookie with a dot-prefixed domain. -/
def rawDotted : RawCookie :=
  { name := "a", value := "v", domain := ".example.com", path := "/",
    expires := none, httpOnly := false, secure := true, sameSite := some "Lax" }

/-- A pre-consent record mirroring the scenario cookie a. -/
def recA : CookieRecord :=
  { url := "https://example.com/", stage := "pre-consent", name := "a", domain := "example.com",
    path := "/", secure := true, httpOnly := false, sameSite := "Lax",
    expires_iso := "", firstParty := true }

/-- The post-consent observation of the same cookie a. -/
def recAp : CookieRecord := { recA with stage := "post-consent" }

/-- A cookie b that appears only after consent. -/
def recB : CookieRecord :=
  { url := "https://example.com/", stage := "post-consent", name := "b", domain := "example.com",
    path := "/", secure := true, httpOnly := false, sameSite := "Lax",
    expires_iso := "", firstParty := true }

/-- A page on which no consent selector resolves to a visible element. -/
def pageNone : Page := { vis := fun _ => VisOutcome.notVisible, clickOk := fun _ => true }

/-- An environment in which every browser operation behaves: launch
succeeds, navigation is quick and clean, both jars hold rawDotted, and
no consent control is visible. -/
def envQuiet : Env :=
  { launchOk := true, navTime := 1200, navError := none,
    jarPre := [rawDotted], jarPost := [rawDotted],
    vis := fun _ => VisOutcome.notVisible, clickOk := fun _ => true }

/-- The same environment except that navigation would need 46000 ms,
past the 45000 ms budget. -/
def envTimeout : Env := { envQuiet with navTime := 46000 }

/-! ### Shared lemmas -/

theorem isDigit_digitChar (n : Nat) : (digitChar n).isDigit = true := by
  have h : n % 10 = 0 ∨ n % 10 = 1 ∨ n % 10 = 2 ∨ n % 10 = 3 ∨ n % 10 = 4 ∨
      n % 10 = 5 ∨ n % 10 = 6 ∨ n % 10 = 7 ∨ n % 10 = 8 ∨ n % 10 = 9 := by omega
  rcases h with h | h | h | h | h | h | h | h | h | h <;> simp [digitChar, h]

theorem digitVal_digitChar (n : Nat) : digitVal (digitChar n) = n % 10 := by
  have h : n % 10 = 0 ∨ n % 10 = 1 ∨ n % 10 = 2 ∨ n % 10 = 3 ∨ n % 10 = 4 ∨
      n % 10 = 5 ∨ n % 10 = 6 ∨ n % 10 = 7 ∨ n % 10 = 8 ∨ n % 10 = 9 := by omega
  rcases h with h | h | h | h | h | h | h | h | h | h <;> simp [digitChar, digitVal, h]

theorem civilFromDays_bounds (days : Nat) :
    1 ≤ (civilFromDays days).2.1 ∧ (civilFromDays days).2.1 ≤ 12 ∧
    1 ≤ (civilFromDays days).2.2 ∧ (civilFromDays days).2.2 ≤ 31 := by
  simp only [civilFromDays]
  refine ⟨?_, ?_, ?_, ?_⟩ <;> (try split) <;> omega

theorem isDigit_plus : ('+' : Char).isDigit = false := by decide

theorem isIso8601L_render (y mo d hh mm ss mmm : Nat)
    (h1 : 1 ≤ mo) (h2 : mo ≤ 12) (h3 : 1 ≤ d) (h4 : d ≤ 31)
    (h5 : hh ≤ 23) (h6 : mm ≤ 59) (h7 : ss ≤ 59) :
    isIso8601L (yearChars y ++ '-' :: pad2 mo ++ '-' :: pad2 d ++
      'T' :: pad2 hh ++ ':' :: pad2 mm ++ ':' :: pad2 ss ++ '.' :: pad3 mmm ++ ['Z']) = true := by
  by_cases hy4 : y ≤ 9999 <;>
    simp [yearChars, hy4, pad2, pad3, pad4, pad6, isIso8601L, isoTailOk,
      isDigit_digitChar, isDigit_plus, twoVal, digitVal_digitChar] <;>
    omega

theorem data_mk (l : List Char) : (String.mk l).data = l := rfl

theorem isIso8601_isoOfMillis (ms : Nat) : isIso8601 (isoOfMillis ms) = true := by
  obtain ⟨h1, h12, hd1, hd31⟩ := civilFromDays_bounds (ms / 86400000)
  simp only [isoOfMillis, isIso8601, data_mk]
  exact isIso8601L_render _ _ _ _ _ _ _ h1 h12 hd1 hd31 (by omega) (by omega) (by omega)

/-! ### C4: expiresIso -/

/-- C4 counterexample: the input 8640000000001 is a positive number of
epoch seconds, yet toIso yields the empty string for it (the
millisecond value exceeds the range a Date can represent, so
toISOString raises and the catch yields the empty string), and the
empty string is not a valid ISO-8601 timestamp; so the part of the
claim that promises a valid ISO-8601 string for every positive input
fails here. -/
theorem C4_toIso_counterexample :
    (0 : Int) < 8640000000001 ∧ toIso (some 8640000000001) = "" ∧ isIso8601 "" = false := by
  refine ⟨by decide, by decide, by decide⟩

/-- C4 amended: the expiresIso field is the empty string when the
epoch-seconds timestamp is absent, zero, or negative, or when the ISO
conversion raises (in particular whenever the timestamp exceeds
8640000000000 seconds, past the largest millisecond value a Date
accepts); and it is a valid ISO-8601 timestamp string for every
positive epoch-seconds input within that range. -/
theorem C4_toIso_amended :
    toIso none = "" ∧
    (∀ t : Int, t ≤ 0 → toIso (some t) = "") ∧
    (∀ t : Int, 8640000000000 < t → toIso (some t) = "") ∧
    (∀ t : Int, 0 < t → t ≤ 8640000000000 → isIso8601 (toIso (some t)) = true) := by
  refine ⟨rfl, ?_, ?_, ?_⟩
  · intro t ht
    simp only [toIso]
    rw [if_pos (by omega)]
  · intro t ht
    simp only [toIso, dateToIso, MAX_DATE_MS]
    rw [if_neg (by omega), if_pos (by omega)]
  · intro t ht1 ht2
    simp only [toIso, dateToIso, MAX_DATE_MS]
    rw [if_neg (by omega), if_neg (by omega)]
    exact isIso8601_isoOfMillis _

/-- C4 witness: at the concrete positive in-range input 1700000000 the
amended theorem yields a valid ISO-8601 string. -/
theorem C4_toIso_witness : isIso8601 (toIso (some 1700000000)) = true :=
  C4_toIso_amended.2.2.2 1700000000 (by decide) (by decide)

/-! ### Diff-engine lemmas -/

theorem contains_keys (pre : List CookieRecord) (k : String) :
    (pre.map keyOf).contains k = decide (∃ p ∈ pre, keyOf p = k) := by
  rw [show (pre.map keyOf).contains k = (pre.map keyOf).elem k from rfl,
    List.elem_eq_mem, decide_eq_decide]
  simp [List.mem_map]

theorem diff_eq (pre post : List CookieRecord) :
    diff pre post =
      (post.filter fun c => decide (∀ p ∈ pre, keyOf p ≠ keyOf c)).map
        (fun c => { c with stage := "added_after_consent" }) := by
  simp only [diff]
  congr 1
  apply List.filter_congr
  intro c _
  rw [contains_keys, ← decide_not, decide_eq_decide]
  push_neg
  rfl

theorem keyOf_restamp (c : CookieRecord) (s : String) :
    keyOf { c with stage := s } = keyOf c := rfl

/-! ### C1: the diff engine computes exactly the re-stamped new keys -/

/-- C1: diff pre post consists of exactly those records of post whose
identity key does not occur among the keys of pre, kept in the relative
order of post (a filter of post), each re-stamped to stage
added_after_consent with every other field unchanged. -/
theorem C1_diff_characterization (pre post : List CookieRecord) :
    diff pre post =
      (post.filter fun c => decide (∀ p ∈ pre, keyOf p ≠ keyOf c)).map
        (fun c => { c with stage := "added_after_consent" }) ∧
    ∀ c : CookieRecord,
      agreesExceptStage c { c with stage := "added_after_consent" } ∧
      ({ c with stage := "added_after_consent" } : CookieRecord).stage = "added_after_consent" :=
  ⟨diff_eq pre post, fun _ => ⟨⟨rfl, rfl, rfl, rfl, rfl, rfl, rfl, rfl, rfl⟩, rfl⟩⟩

/-! ### C2: no pre triple survives, and diff is a subset of post -/

/-- C2: for all snapshot lists, no identity triple present in pre
appears in diff pre post, and every diff entry agrees with some post
entry on every field other than stage. -/
theorem C2_diff_props (pre post : List CookieRecord) :
    (∀ p ∈ pre, ∀ d ∈ diff pre post,
      ¬(d.name = p.name ∧ d.domain = p.domain ∧ d.path = p.path)) ∧
    (∀ d ∈ diff pre post, ∃ c ∈ post, agreesExceptStage c d) := by
  constructor
  · intro p hp d hd htrip
    rw [diff_eq] at hd
    obtain ⟨c, hc, hcd⟩ := List.mem_map.mp hd
    obtain ⟨_, hpred⟩ := List.mem_filter.mp hc
    refine of_decide_eq_true hpred p hp ?_
    have hkd : keyOf d = keyOf c := by rw [← hcd]; rfl
    have hkp : keyOf p = keyOf d := by
      unfold keyOf
      rw [htrip.1, htrip.2.1, htrip.2.2]
    rw [hkp, hkd]
  · intro d hd
    rw [diff_eq] at hd
    obtain ⟨c, hc, hcd⟩ := List.mem_map.mp hd
    exact ⟨c, (List.mem_filter.mp hc).1, by
      rw [← hcd]
      exact ⟨rfl, rfl, rfl, rfl, rfl, rfl, rfl, rfl, rfl⟩⟩

/-- C2 witness: with pre holding cookie a and post holding a and b, the
re-stamped b is in the diff, its triple differs from the pre entry, and
it agrees with a post entry off stage. -/
theorem C2_diff_witness :
    ¬(({ recB with stage := "added_after_consent" } : CookieRecord).name = recA.name ∧
      ({ recB with stage := "added_after_consent" } : CookieRecord).domain = recA.domain ∧
      ({ recB with stage := "added_after_consent" } : CookieRecord).path = recA.path) ∧
    ∃ c ∈ [recAp, recB],
      agreesExceptStage c { recB with stage := "added_after_consent" } :=
  ⟨(C2_diff_props [recA] [recAp, recB]).1 recA (by decide)
      { recB with stage := "added_after_consent" } (by decide),
    (C2_diff_props [recA] [recAp, recB]).2
      { recB with stage := "added_after_consent" } (by decide)⟩

/-! ### C9: the joined key is not injective on triples -/

/-- C9: joining name, domain and path with a bar and no escaping is not
injective: collA and collB have distinct identity triples but the same
key, and consequently diff excludes collB from the post list even
though its triple occurs nowhere in the pre list [collA]. -/
theorem C9_key_collision :
    keyOf collA = keyOf collB ∧
    ¬(collB.name = collA.name ∧ collB.domain = collA.domain ∧ collB.path = collA.path) ∧
    diff [collA] [collB] = [] := by decide

/-! ### C3: the firstParty flag -/

/-- C3 counterexample: the cookie domain consisting of a single dot
carries a domain attribute, strips to the empty string, equals neither
the host example.com nor a dot-suffix of it, so the claimed condition
is false there, yet the code computes firstParty = true (the stripped
domain is falsy in JS, which the claim reads as the no-domain case
only). -/
theorem C3_firstParty_counterexample :
    firstPartyFlag "." "example.com" = true ∧
    ("." : String) ≠ "" ∧
    stripLeadingDot "." ≠ "example.com" ∧
    strEndsWith "example.com" ("." ++ stripLeadingDot ".") = false := by decide

/-- C3 amended: firstParty is true exactly when the domain with a
single leading dot stripped is the empty string (which covers an absent
domain attribute and also a domain that is a lone dot), or the stripped
domain equals the host, or the host ends with a dot followed by the
stripped domain; the two scenario instances hold. -/
theorem C3_firstParty_amended :
    (∀ dom host : String,
      firstPartyFlag dom host =
        ((stripLeadingDot dom == "") || (host == stripLeadingDot dom) ||
          strEndsWith host ("." ++ stripLeadingDot dom))) ∧
    firstPartyFlag ".example.com" "example.com" = true ∧
    firstPartyFlag "other-cdn.net" "example.com" = false := by
  refine ⟨?_, by decide, by decide⟩
  intro dom host
  simp only [firstPartyFlag]
  by_cases h : stripLeadingDot dom = ""
  · simp [h]
  · simp [h, beq_eq_false_iff_ne.mpr h]

/-! ### C8: capture is deterministic and does not mutate the session -/

/-- C8: capture leaves the session cookie state unchanged, a second run
over the resulting state returns the same record list, and the
firstParty computation yields the same boolean whenever it is re-run on
the same domain and host. -/
theorem C8_capture_pure (st : SessionState) (url stage : String) :
    (capture st url stage).2 = st ∧
    (capture ((capture st url stage).2) url stage).1 = (capture st url stage).1 ∧
    ∀ dom host : String, firstPartyFlag dom host = firstPartyFlag dom host :=
  ⟨rfl, rfl, fun _ _ => rfl⟩

/-! ### C10: capture copies the identity fields unmodified -/

/-- C10: capture yields one record per raw cookie in jar order; each
record takes its url and stage from the arguments and its name, domain
and path verbatim from the raw cookie (the domain keeps any leading
dot), and the key used for diffing joins those verbatim fields, not the
normalized domain of the firstParty test. -/
theorem C10_capture_fields (jar : List RawCookie) (url stage : String) :
    (capture ⟨jar⟩ url stage).1 = captureList jar url stage ∧
    (captureList jar url stage).length = jar.length ∧
    ∀ i, (hi : i < jar.length) →
      ∃ r, (captureList jar url stage)[i]? = some r ∧
        r.url = url ∧ r.stage = stage ∧
        r.name = (jar.get ⟨i, hi⟩).name ∧
        r.domain = (jar.get ⟨i, hi⟩).domain ∧
        r.path = (jar.get ⟨i, hi⟩).path ∧
        keyOf r = (jar.get ⟨i, hi⟩).name ++ "|" ++ (jar.get ⟨i, hi⟩).domain ++ "|" ++
          (jar.get ⟨i, hi⟩).path := by
  refine ⟨rfl, by simp [captureList], ?_⟩
  intro i hi
  refine ⟨mkRecord url stage (hostnameOf url) (jar.get ⟨i, hi⟩), ?_, rfl, rfl, rfl, rfl, rfl, rfl⟩
  simp [captureList, List.getElem?_eq_getElem hi, List.get_eq_getElem]

/-- C10 witness: on a one-cookie jar whose domain starts with a dot,
the captured record keeps the dotted domain and keys on it. -/
theorem C10_capture_witness :
    ∃ r, (captureList [rawDotted] "https://example.com/" "pre-consent")[0]? = some r ∧
      r.url = "https://example.com/" ∧ r.stage = "pre-consent" ∧
      r.name = ([rawDotted].get ⟨0, by decide⟩).name ∧
      r.domain = ([rawDotted].get ⟨0, by decide⟩).domain ∧
      r.path = ([rawDotted].get ⟨0, by decide⟩).path ∧
      keyOf r = ([rawDotted].get ⟨0, by decide⟩).name ++ "|" ++
        ([rawDotted].get ⟨0, by decide⟩).domain ++ "|" ++ ([rawDotted].get ⟨0, by decide⟩).path :=
  (C10_capture_fields [rawDotted] "https://example.com/" "pre-consent").2.2 0 (by decide)

/-! ### Consent-resolver lemmas -/

theorem tryAcceptGo_find (p : Page) (l : List String) :
    (tryAcceptGo p l).1 = (l.find? fun s => p.vis s == VisOutcome.visible).isSome ∧
    (tryAcceptGo p l).2 = (l.find? fun s => p.vis s == VisOutcome.visible).toList := by
  induction l with
  | nil => simp [tryAcceptGo]
  | cons a l ih =>
    cases h : p.vis a <;> simp [tryAcceptGo, List.find?_cons, h, ih]

theorem tryAcceptGo_vis_congr (p q : Page) (l : List String) (h : q.vis = p.vis) :
    tryAcceptGo q l = tryAcceptGo p l := by
  induction l with
  | nil => rfl
  | cons a l ih =>
    simp only [tryAcceptGo, h, ih]

/-! ### C5: the consent resolver -/

/-- C5: tryAccept walks the fixed selector list in order: it answers
true exactly when some selector probes visible, the selector it acts on
(clicks) is the find?-first visible one in list order, the outcome does
not depend on the click results, it answers false once the list is
exhausted with no visible element, and in that case the pipeline still
produces a full result whose post field is the post-consent snapshot. -/
theorem C5_tryAccept_order (p : Page) (env : Env) (url : String) :
    ((tryAccept p).1 = true ↔ ∃ s ∈ CONSENT_SELECTORS, p.vis s = VisOutcome.visible) ∧
    ((tryAccept p).2 = (CONSENT_SELECTORS.find? fun s => p.vis s == VisOutcome.visible).toList) ∧
    (∀ q : Page, q.vis = p.vis → tryAccept q = tryAccept p) ∧
    ((∀ s ∈ CONSENT_SELECTORS, p.vis s ≠ VisOutcome.visible) → (tryAccept p).1 = false) ∧
    (env.launchOk = true → env.navTime ≤ NAV_TIMEOUT → env.navError = none →
      (tryAccept ⟨env.vis, env.clickOk⟩).1 = false →
      ∃ r, (scanUrl env url).1 = Except.ok r ∧
        r.post = (capture ⟨env.jarPost⟩ url "post-consent").1) := by
  obtain ⟨h1, h2⟩ := tryAcceptGo_find p CONSENT_SELECTORS
  refine ⟨?_, h2, ?_, ?_, ?_⟩
  · rw [show tryAccept p = tryAcceptGo p CONSENT_SELECTORS from rfl, h1, List.find?_isSome]
    simp
  · intro q hq
    exact tryAcceptGo_vis_congr p q CONSENT_SELECTORS hq
  · intro hnone
    rw [show tryAccept p = tryAcceptGo p CONSENT_SELECTORS from rfl, h1]
    have hfind : (CONSENT_SELECTORS.find? fun s => p.vis s == VisOutcome.visible) = none := by
      rw [List.find?_eq_none]
      intro s hs
      simp [hnone s hs]
    rw [hfind]
    rfl
  · intro hl hnav herr _
    refine ⟨⟨(capture ⟨env.jarPre⟩ url "pre-consent").1,
      (capture ⟨env.jarPost⟩ url "post-consent").1,
      diff (capture ⟨env.jarPre⟩ url "pre-consent").1
        (capture ⟨env.jarPost⟩ url "post-consent").1⟩, ?_, rfl⟩
    simp only [scanUrl, hl, if_true, herr]
    rw [if_neg (by omega)]

/-- C5 witness: on a page with no visible consent control in a clean
environment, tryAccept answers false and the scan still returns a full
result carrying the post-consent snapshot. -/
theorem C5_tryAccept_witness :
    ∃ r, (scanUrl envQuiet "https://example.com/").1 = Except.ok r ∧
      r.post = (capture ⟨envQuiet.jarPost⟩ "https://example.com/" "post-consent").1 :=
  (C5_tryAccept_order pageNone envQuiet "https://example.com/").2.2.2.2
    rfl (by decide) rfl (by decide)

/-! ### C6: teardown on every exit path, all-or-nothing result -/

/-- C6: whenever a browser session is created the scan releases it, on
success as well as on fatal failure; the only path without a release is
a launch failure, where no session ever existed; navigation beyond the
45000 ms budget fails the scan with NavigationTimeout and still
releases the session; and a successful result is always the complete
pre/post/diff triple, never a partial one. -/
theorem C6_scan_release (env : Env) (url : String) :
    (env.launchOk = true → (scanUrl env url).2 = SessionOutcome.released) ∧
    ((scanUrl env url).2 = SessionOutcome.noneCreated →
      (scanUrl env url).1 = Except.error ScanError.LaunchFailure ∧ env.launchOk = false) ∧
    (env.launchOk = true → NAV_TIMEOUT < env.navTime →
      (scanUrl env url).1 = Except.error ScanError.NavigationTimeout ∧
      (scanUrl env url).2 = SessionOutcome.released) ∧
    (∀ r, (scanUrl env url).1 = Except.ok r →
      r.pre = (capture ⟨env.jarPre⟩ url "pre-consent").1 ∧
      r.post = (capture ⟨env.jarPost⟩ url "post-consent").1 ∧
      r.diff = diff r.pre r.post) := by
  by_cases hl : env.launchOk
  · refine ⟨fun _ => by simp [scanUrl, hl], ?_, ?_, ?_⟩
    · intro hs
      exact absurd hs (by simp [scanUrl, hl])
    · intro _ hnav
      simp [scanUrl, hl, if_pos hnav]
    · intro r hr
      simp only [scanUrl, hl, if_true] at hr
      by_cases hnav : NAV_TIMEOUT < env.navTime
      · rw [if_pos hnav] at hr
        exact absurd hr (by simp)
      · rw [if_neg hnav] at hr
        cases herr : env.navError with
        | some m =>
          rw [herr] at hr
          exact absurd hr (by simp)
        | none =>
          rw [herr] at hr
          simp only [Except.ok.injEq] at hr
          rw [← hr]
          exact ⟨rfl, rfl, rfl⟩
  · have hl2 : env.launchOk = false := by simpa using hl
    refine ⟨fun h => absurd h (by simp [hl2]), ?_, ?_, ?_⟩
    · intro _
      exact ⟨by simp [scanUrl, hl2], hl2⟩
    · intro h
      exact absurd h (by simp [hl2])
    · intro r hr
      exact absurd hr (by simp [scanUrl, hl2])

/-- C6 witness: in the environment whose navigation needs 46000 ms the
scan fails with NavigationTimeout and the session is still released. -/
theorem C6_scan_witness :
    (scanUrl envTimeout "https://example.com/").1 = Except.error ScanError.NavigationTimeout ∧
    (scanUrl envTimeout "https://example.com/").2 = SessionOutcome.released :=
  (C6_scan_release envTimeout "https://example.com/").2.2.1 rfl (by decide)

/-! ### C7: invalid URLs are rejected before any session exists -/

/-- C7: a request whose URL fails to parse, or parses to a protocol
other than http or https, is answered with the invalid-url rejection,
on which no scan runs and so no browser session is created; a scan
response can only arise from a parsed URL with an http or https
protocol. -/
theorem C7_invalid_url_rejected (env : Env) (u : String) :
    (parseUrl u = none → handleScan env (some u) = ApiResponse.badRequestInvalid) ∧
    (∀ p, parseUrl u = some p → p.protocol ≠ "http:" → p.protocol ≠ "https:" →
      handleScan env (some u) = ApiResponse.badRequestInvalid) ∧
    (∀ r sess, handleScan env (some u) = ApiResponse.scanResponse r sess →
      ∃ p, parseUrl u = some p ∧ (p.protocol = "http:" ∨ p.protocol = "https:") ∧
        r = (scanUrl env p.href).1 ∧ sess = (scanUrl env p.href).2) := by
  refine ⟨?_, ?_, ?_⟩
  · intro hp
    simp [handleScan, hp]
  · intro p hp hh hhs
    simp only [handleScan, hp]
    rw [if_neg]
    simp [hh, hhs]
  · intro r sess h
    cases hp : parseUrl u with
    | none =>
      rw [show handleScan env (some u) = ApiResponse.badRequestInvalid by
        simp [handleScan, hp]] at h
      exact absurd h (by simp)
    | some p =>
      refine ⟨p, rfl, ?_⟩
      simp only [handleScan, hp] at h
      by_cases hok : (p.protocol == "http:" || p.protocol == "https:") = true
      · rw [if_pos hok] at h
        obtain ⟨h1, h2⟩ := ApiResponse.scanResponse.inj h
        refine ⟨?_, h1.symm, h2.symm⟩
        simpa using hok
      · rw [if_neg hok] at h
        exact absurd h (by simp)

/-- C7 witness: the request for ftp://example.com, whose protocol is
ftp:, is answered with the invalid-url rejection and never reaches the
scan. -/
theorem C7_invalid_url_witness :
    handleScan envQuiet (some "ftp://example.com") = ApiResponse.badRequestInvalid :=
  (C7_invalid_url_rejected envQuiet "ftp://example.com").2.1
    ⟨"ftp:", "ftp://example.com"⟩ (by decide) (by decide) (by decide)

end CookieScanner
